import Mathlib

/-!
Shallow embedding of `src/main.py`, a FastAPI demo backend serving a fixed
in-memory gamification dataset (users, badges, leaderboard, user summaries)
through read-only endpoints, a no-op award endpoint, and a `/test` database
diagnostic handler.  Pydantic models become structures, the module-level
dataset constants become Lean constants, each route handler becomes a pure
function, HTTP errors become `Except` errors carrying status code and
detail, and the optional `database` module probed by `/test` becomes an
explicit environment value.
-/

/-- Embeds the pydantic model `DemoUser` (main.py lines 22-26):
id, name, optional avatar, title. -/
structure DemoUser where
  id : String
  name : String
  avatar : Option String
  title : String
deriving DecidableEq

/-- Embeds the pydantic model `DemoBadge` (main.py lines 28-33):
id, name, description, icon, color. -/
structure DemoBadge where
  id : String
  name : String
  description : String
  icon : String
  color : String
deriving DecidableEq

/-- Embeds the pydantic model `DemoLeaderboardEntry` (main.py lines 35-39):
an embedded user plus points, level, rank.  The pydantic `Field` bounds
(points ≥ 0, level ≥ 1, rank ≥ 1) hold for the concrete dataset and are not
part of the type here. -/
structure DemoLeaderboardEntry where
  user : DemoUser
  points : Int
  level : Int
  rank : Int
deriving DecidableEq

/-- Embeds the pydantic model `DemoUserSummary` (main.py lines 41-47). -/
structure DemoUserSummary where
  user : DemoUser
  points : Int
  level : Int
  streak_days : Int
  badges : List DemoBadge
  recent_actions : List String
deriving DecidableEq

/-- Embeds the module constant `_DEMO_USERS` (main.py lines 51-56). -/
def _DEMO_USERS : List DemoUser := [
  ⟨"u_001", "Alex Morgan", none, "Sales Captain"⟩,
  ⟨"u_002", "Jamie Lee", none, "Ops Strategist"⟩,
  ⟨"u_003", "Riley Chen", none, "Product Ace"⟩,
  ⟨"u_004", "Jordan Patel", none, "CX Pro"⟩]

/-- Embeds the module constant `_DEMO_BADGES` (main.py lines 58-62). -/
def _DEMO_BADGES : List DemoBadge := [
  ⟨"b_hero", "Hero", "Top performer of the week", "Trophy", "#F59E0B"⟩,
  ⟨"b_streak", "Streak", "7-day activity streak", "Flame", "#EF4444"⟩,
  ⟨"b_helper", "Mentor", "Helped 5 teammates", "Handshake", "#10B981"⟩]

/-- Embeds the module constant `_DEMO_LEADERBOARD` (main.py lines 64-69);
`_DEMO_USERS[i]` becomes a checked list index. -/
def _DEMO_LEADERBOARD : List DemoLeaderboardEntry := [
  ⟨_DEMO_USERS.get ⟨0, by decide⟩, 18250, 12, 1⟩,
  ⟨_DEMO_USERS.get ⟨1, by decide⟩, 16940, 11, 2⟩,
  ⟨_DEMO_USERS.get ⟨2, by decide⟩, 15100, 10, 3⟩,
  ⟨_DEMO_USERS.get ⟨3, by decide⟩, 13320, 9, 4⟩]

/-- Embeds the module constant `_DEMO_USER_DETAILS` (main.py lines 71-111),
a Python dict, as an association list in insertion order. -/
def _DEMO_USER_DETAILS : List (String × DemoUserSummary) := [
  ("u_001", ⟨_DEMO_USERS.get ⟨0, by decide⟩, 18250, 12, 8,
    [_DEMO_BADGES.get ⟨0, by decide⟩, _DEMO_BADGES.get ⟨1, by decide⟩],
    ["Closed enterprise deal (+2,000)",
     "Completed onboarding quest (+300)",
     "Shared playbook with team (+100)"]⟩),
  ("u_002", ⟨_DEMO_USERS.get ⟨1, by decide⟩, 16940, 11, 6,
    [_DEMO_BADGES.get ⟨1, by decide⟩],
    ["Optimized ops workflow (+500)",
     "Daily check-in (+20)"]⟩),
  ("u_003", ⟨_DEMO_USERS.get ⟨2, by decide⟩, 15100, 10, 4,
    [],
    ["Launched feature beta (+1,200)"]⟩),
  ("u_004", ⟨_DEMO_USERS.get ⟨3, by decide⟩, 13320, 9, 2,
    [_DEMO_BADGES.get ⟨2, by decide⟩],
    ["Resolved 20+ support tickets (+800)"]⟩)]

/-- Embeds the handler `get_leaderboard` (main.py lines 129-131): returns
the leaderboard list as constructed, no sort. -/
def get_leaderboard : List DemoLeaderboardEntry := _DEMO_LEADERBOARD

/-- Embeds the handler `get_badges` (main.py lines 133-135). -/
def get_badges : List DemoBadge := _DEMO_BADGES

/-- Embeds the handler `list_users` (main.py lines 137-139). -/
def list_users : List DemoUser := _DEMO_USERS

/-- Embeds the handler `get_user_summary` (main.py lines 141-146).
`_DEMO_USER_DETAILS.get(user_id)` is the association-list lookup; the
Python guard `if not summary` fires exactly when the lookup returns `None`
(pydantic model instances are always truthy), raising
`HTTPException(404, "User not found in demo dataset")`, embedded here as
an `Except.error` carrying status code and detail. -/
def get_user_summary (user_id : String) : Except (Nat × String) DemoUserSummary :=
  match _DEMO_USER_DETAILS.lookup user_id with
  | some summary => Except.ok summary
  | none => Except.error (404, "User not found in demo dataset")

/-- Embeds the pydantic model `DemoAction` (main.py lines 150-152), the
request body of POST /api/demo/award, after successful validation. -/
structure DemoAction where
  action : String
  points : Int
deriving DecidableEq

/-- A raw request body for POST /api/demo/award: each declared field is
either present or absent. -/
structure RawDemoAction where
  action : Option String
  points : Option Int
deriving DecidableEq

/-- Embeds pydantic validation of the `DemoAction` schema (main.py lines
150-152): `action: str` is required, so a body missing it is rejected;
`points: int = 0` is optional and defaults to 0 when absent. -/
def DemoAction.validate (raw : RawDemoAction) : Except String DemoAction :=
  match raw.action with
  | none => Except.error "field required: action"
  | some a => Except.ok ⟨a, raw.points.getD 0⟩

/-- The response body of POST /api/demo/award (main.py lines 156-159). -/
structure AwardResponse where
  mode : String
  message : String
deriving DecidableEq

/-- Embeds the handler `award_points` (main.py lines 154-159): ignores its
argument and returns the fixed demo-mode acknowledgment. -/
def award_points (_a : DemoAction) : AwardResponse :=
  ⟨"demo", "Read-only demo: no data was changed."⟩

/-- The process-wide dataset as explicit state, for the frame property of
the award endpoint: the four module constants of main.py. -/
structure ServerState where
  users : List DemoUser
  badges : List DemoBadge
  leaderboard : List DemoLeaderboardEntry
  user_details : List (String × DemoUserSummary)
deriving DecidableEq

/-- The dataset as built at process start (main.py lines 51-111). -/
def initState : ServerState :=
  ⟨_DEMO_USERS, _DEMO_BADGES, _DEMO_LEADERBOARD, _DEMO_USER_DETAILS⟩

/-- Stateful reading of `list_users`: the handler reads the users list. -/
def list_users_st (s : ServerState) : List DemoUser := s.users

/-- Stateful reading of `get_leaderboard`. -/
def get_leaderboard_st (s : ServerState) : List DemoLeaderboardEntry :=
  s.leaderboard

/-- Stateful reading of `get_badges`. -/
def get_badges_st (s : ServerState) : List DemoBadge := s.badges

/-- Stateful reading of `get_user_summary`. -/
def get_user_summary_st (s : ServerState) (user_id : String) :
    Except (Nat × String) DemoUserSummary :=
  match s.user_details.lookup user_id with
  | some summary => Except.ok summary
  | none => Except.error (404, "User not found in demo dataset")

/-- Embeds `award_points` as a state transformer: the handler body
(main.py lines 154-159) contains no reference to any dataset constant and
no assignment, so the state passes through untouched. -/
def award_points_st (a : DemoAction) (s : ServerState) :
    ServerState × AwardResponse :=
  (s, award_points a)

/-- Embeds the interface of the optional `database` module's `db` handle as
consumed by `/test` (main.py lines 178-189): an optional `name` attribute
(the `getattr(db, "name", ...)` probe) and the outcome of calling
`list_collection_names()`, which either returns a list of names or raises
an exception whose string form is recorded. -/
structure DbHandle where
  name : Option String
  list_collection_names : Except String (List String)

/-- Embeds the outcome of `from database import db` (main.py line 178):
the import succeeds yielding an optional handle, fails with `ImportError`,
or some other exception is raised inside the try block. -/
inductive ImportResult where
  | ok (db : Option DbHandle)
  | importError
  | otherError (msg : String)

/-- The environment `/test` runs against: the import outcome and the raw
values of the DATABASE_URL and DATABASE_NAME environment variables
(`os.getenv` returns `none` when unset). -/
structure TestEnv where
  importResult : ImportResult
  database_url_env : Option String
  database_name_env : Option String

/-- Embeds Python truthiness of `os.getenv(...)` (main.py lines 197-198):
an unset variable and an empty string are both falsy. -/
def env_set (o : Option String) : Bool :=
  match o with
  | some s => !(s == "")
  | none => false

/-- Embeds Python string slicing `s[:50]` (main.py lines 189 and 195):
take the first n code points. -/
def py_truncate (s : String) (n : Nat) : String := String.mk (s.data.take n)

/-- The `/test` response dict (main.py lines 168-175).  `database_url` and
`database_name` start out as Python `None`, hence `Option String`. -/
structure TestResponse where
  backend : String
  database : String
  database_url : Option String
  database_name : Option String
  connection_status : String
  collections : List String
deriving DecidableEq

/-- The initial response dict of `/test` (main.py lines 168-175). -/
def init_response : TestResponse :=
  { backend := "✅ Running"
    database := "❌ Not Available"
    database_url := none
    database_name := none
    connection_status := "Not Connected"
    collections := [] }

/-- The exceptions that can escape the try block of `/test`: `ImportError`
or any other exception (main.py lines 192-195). -/
inductive PyError where
  | importError
  | otherExc (msg : String)

/-- Embeds the body of the try block of `/test` (main.py lines 178-191).
On a successful import with a non-None handle the response is upgraded,
then `list_collection_names()` is attempted inside the inner try: success
keeps at most 10 names and sets "Connected & Working", failure is caught
there and records the truncated error.  A None handle reports
"Available but not initialized".  Import failures escape as exceptions. -/
def try_block (env : TestEnv) (response : TestResponse) :
    Except PyError TestResponse :=
  match env.importResult with
  | ImportResult.importError => Except.error PyError.importError
  | ImportResult.otherError msg => Except.error (PyError.otherExc msg)
  | ImportResult.ok none =>
      Except.ok { response with database := "⚠️  Available but not initialized" }
  | ImportResult.ok (some db) =>
      let response := { response with
        database := "✅ Available"
        database_url := some "✅ Configured"
        database_name := some (db.name.getD "✅ Connected")
        connection_status := "Connected" }
      match db.list_collection_names with
      | Except.ok collections =>
          Except.ok { response with
            collections := collections.take 10
            database := "✅ Connected & Working" }
      | Except.error e =>
          Except.ok { response with
            database := "⚠️  Connected but Error: " ++ py_truncate e 50 }

/-- Embeds the two except clauses of `/test` (main.py lines 192-195): each
caught exception is converted into a descriptive `database` string. -/
def handle_error (response : TestResponse) : PyError → TestResponse
  | PyError.importError =>
      { response with database := "❌ Database module not found" }
  | PyError.otherExc e =>
      { response with database := "❌ Error: " ++ py_truncate e 50 }

/-- Embeds the unconditional final assignments of `/test` (main.py lines
197-198): overwrite `database_url` / `database_name` with environment
presence indicators. -/
def finalize (env : TestEnv) (response : TestResponse) : TestResponse :=
  { response with
    database_url := some (if env_set env.database_url_env then "✅ Set" else "❌ Not Set")
    database_name := some (if env_set env.database_name_env then "✅ Set" else "❌ Not Set") }

/-- Embeds the handler `test_database` (main.py lines 165-200): run the try
block against the initial response, catch every exception via the except
clauses, then apply the final environment-variable assignments. -/
def test_database (env : TestEnv) : TestResponse :=
  let response :=
    match try_block env init_response with
    | Except.ok r => r
    | Except.error e => handle_error init_response e
  finalize env response

/-- The keys of the user-summary index, in insertion order. -/
def user_summary_keys : List String := _DEMO_USER_DETAILS.map Prod.fst

/-- C1: for every user identifier present as a key of the user-summary
index, GET /api/demo/user/\x7buser_id\x7d returns the corresponding
UserSummary; for every identifier not present, it fails with a 404
not-found condition whose message is exactly
"User not found in demo dataset". -/
theorem get_user_summary_hit_or_404 (uid : String) :
    (∀ s, _DEMO_USER_DETAILS.lookup uid = some s →
      get_user_summary uid = Except.ok s) ∧
    (_DEMO_USER_DETAILS.lookup uid = none →
      get_user_summary uid = Except.error (404, "User not found in demo dataset")) := by
  constructor
  · intro s h
    unfold get_user_summary
    rw [h]
  · intro h
    unfold get_user_summary
    rw [h]

/-- Witness for C1 at the absent identifier "u_999". -/
theorem get_user_summary_hit_or_404_witness :
    _DEMO_USER_DETAILS.lookup "u_999" = none ∧
    get_user_summary "u_999" = Except.error (404, "User not found in demo dataset") :=
  ⟨by decide, (get_user_summary_hit_or_404 "u_999").2 (by decide)⟩

/-- C2: GET /api/demo/leaderboard returns exactly 4 entries, in insertion
order with no dynamic sort, with rank strictly increasing (1,2,3,4) and
points strictly decreasing as rank increases; the rank-1 entry has 18250
points and the rank-4 entry has 13320 points. -/
theorem get_leaderboard_shape :
    get_leaderboard = _DEMO_LEADERBOARD ∧
    get_leaderboard.length = 4 ∧
    get_leaderboard.map DemoLeaderboardEntry.rank = [1, 2, 3, 4] ∧
    List.Pairwise (fun a b => b.points < a.points) get_leaderboard ∧
    (get_leaderboard.find? (fun e => e.rank == 1)).map DemoLeaderboardEntry.points
      = some 18250 ∧
    (get_leaderboard.find? (fun e => e.rank == 4)).map DemoLeaderboardEntry.points
      = some 13320 := by
  refine ⟨rfl, ?_, ?_, ?_, ?_, ?_⟩ <;> decide

/-- C3: POST /api/demo/award succeeds on every request body with exactly
the demo-mode acknowledgment, and the static dataset (users, badges,
leaderboard, user-summary index) is unchanged, so subsequent list-users
and leaderboard calls return the same results as before the award call. -/
theorem award_points_is_noop (a : DemoAction) (s : ServerState) :
    (award_points_st a s).2 = ⟨"demo", "Read-only demo: no data was changed."⟩ ∧
    (award_points_st a s).1 = s ∧
    list_users_st (award_points_st a s).1 = list_users_st s ∧
    get_leaderboard_st (award_points_st a s).1 = get_leaderboard_st s ∧
    get_badges_st (award_points_st a s).1 = get_badges_st s ∧
    ∀ uid, get_user_summary_st (award_points_st a s).1 uid = get_user_summary_st s uid :=
  ⟨rfl, rfl, rfl, rfl, rfl, fun _ => rfl⟩

/-- C7: for every user identifier that is a key of the user-summary index,
the User embedded in the UserSummary returned by get_user_summary equals
the User with the same identifier in the sequence returned by list_users. -/
theorem user_summary_embeds_listed_user :
    ∀ uid ∈ user_summary_keys,
      (get_user_summary uid).toOption.map DemoUserSummary.user =
        list_users.find? (fun u => u.id == uid) := by decide

/-- Witness for C7 at the identifier "u_001". -/
theorem user_summary_embeds_listed_user_witness :
    (get_user_summary "u_001").toOption.map DemoUserSummary.user =
      list_users.find? (fun u => u.id == "u_001") :=
  user_summary_embeds_listed_user "u_001" (by decide)

/-- C8: GET /api/demo/badges always returns exactly 3 badges, including
one badge with id "b_hero" and color "#F59E0B". -/
theorem get_badges_shape :
    get_badges.length = 3 ∧
    ∃ b ∈ get_badges, b.id = "b_hero" ∧ b.color = "#F59E0B" := by decide

/-- C9: the set of keys of the user-summary index is exactly the set of
user identifiers in the user collection, and for every such identifier
the points and level stored in its UserSummary equal the points and level
of the leaderboard entry embedding the user with that identifier. -/
theorem user_details_keys_and_points_consistent :
    (∀ uid : String, uid ∈ user_summary_keys ↔ uid ∈ _DEMO_USERS.map DemoUser.id) ∧
    ∀ uid ∈ user_summary_keys,
      (_DEMO_USER_DETAILS.lookup uid).map (fun s => (s.points, s.level)) =
        (_DEMO_LEADERBOARD.find? (fun e => e.user.id == uid)).map
          (fun e => (e.points, e.level)) := by
  constructor
  · intro uid
    rw [show user_summary_keys = _DEMO_USERS.map DemoUser.id by decide]
  · decide

/-- Witness for C9 at the identifier "u_004". -/
theorem user_details_keys_and_points_consistent_witness :
    ("u_004" ∈ user_summary_keys ↔ "u_004" ∈ _DEMO_USERS.map DemoUser.id) ∧
    (_DEMO_USER_DETAILS.lookup "u_004").map (fun s => (s.points, s.level)) =
      (_DEMO_LEADERBOARD.find? (fun e => e.user.id == "u_004")).map
        (fun e => (e.points, e.level)) :=
  ⟨user_details_keys_and_points_consistent.1 "u_004",
   user_details_keys_and_points_consistent.2 "u_004" (by decide)⟩

/-- C10: in the body of POST /api/demo/award, points is optional and
defaults to 0 when absent while action is required: a body with only a
string action validates and yields the same acknowledgment as one with
points given, and a body missing action is rejected by validation. -/
theorem demo_action_validation :
    (∀ a : String, DemoAction.validate ⟨some a, none⟩ = Except.ok ⟨a, 0⟩) ∧
    (∀ (a : String) (p : Int), DemoAction.validate ⟨some a, some p⟩ = Except.ok ⟨a, p⟩) ∧
    (∀ (a : String) (p : Int), award_points ⟨a, 0⟩ = award_points ⟨a, p⟩) ∧
    (∀ po : Option Int, (DemoAction.validate ⟨none, po⟩).isOk = false) :=
  ⟨fun _ => rfl, fun _ _ => rfl, fun _ _ => rfl, fun _ => rfl⟩

/-- Truncation to n code points yields at most n code points. -/
lemma py_truncate_length_le (s : String) (n : Nat) :
    (py_truncate s n).length ≤ n := by
  show (s.data.take n).length ≤ n
  simp

/-- C4: in the /test handler, a missing database module reports
"❌ Database module not found"; a located module with a None handle
reports "⚠️  Available but not initialized"; with a non-None handle the
handler enumerates collection names, the collections field holds at most
10 names, on success the database status becomes "✅ Connected & Working",
and on failure it becomes the error status embedding the exception message
truncated to at most 50 characters. -/
theorem test_database_probe_spec (env : TestEnv) :
    (env.importResult = ImportResult.importError →
      (test_database env).database = "❌ Database module not found") ∧
    (env.importResult = ImportResult.ok none →
      (test_database env).database = "⚠️  Available but not initialized") ∧
    (∀ db : DbHandle, env.importResult = ImportResult.ok (some db) →
      (test_database env).collections.length ≤ 10 ∧
      (∀ ls, db.list_collection_names = Except.ok ls →
        (test_database env).database = "✅ Connected & Working" ∧
        (test_database env).collections = ls.take 10) ∧
      (∀ msg, db.list_collection_names = Except.error msg →
        (test_database env).database = "⚠️  Connected but Error: " ++ py_truncate msg 50 ∧
        (py_truncate msg 50).length ≤ 50)) := by
  obtain ⟨ir, urlv, namev⟩ := env
  refine ⟨?_, ?_, ?_⟩
  · rintro rfl
    rfl
  · rintro rfl
    rfl
  · rintro ⟨nm, lcn⟩ rfl
    cases lcn with
    | ok ls =>
      refine ⟨?_, ?_, ?_⟩
      · show (ls.take 10).length ≤ 10
        simp
      · intro ls2 h
        cases h
        exact ⟨rfl, rfl⟩
      · intro msg h
        exact Except.noConfusion h
    | error e =>
      refine ⟨?_, ?_, ?_⟩
      · show ([] : List String).length ≤ 10
        simp
      · intro ls2 h
        exact Except.noConfusion h
      · intro msg h
        cases h
        exact ⟨rfl, py_truncate_length_le e 50⟩

/-- Witness for C4 on a concrete environment with a working handle. -/
theorem test_database_probe_spec_witness :
    (test_database ⟨ImportResult.ok (some ⟨some "gamify", Except.ok ["users", "badges"]⟩),
        some "mongodb://h", none⟩).database = "✅ Connected & Working" ∧
    (test_database ⟨ImportResult.ok (some ⟨some "gamify", Except.ok ["users", "badges"]⟩),
        some "mongodb://h", none⟩).collections = ["users", "badges"] := by
  have h := (test_database_probe_spec
    ⟨ImportResult.ok (some ⟨some "gamify", Except.ok ["users", "badges"]⟩),
      some "mongodb://h", none⟩).2.2
    ⟨some "gamify", Except.ok ["users", "badges"]⟩ rfl
  exact ⟨(h.2.1 ["users", "badges"] rfl).1,
    ((h.2.1 ["users", "badges"] rfl).2).trans (by decide)⟩

/-- C5: GET /test always returns a status object and never propagates an
exception: every exception escaping the try block (ImportError or any
other exception) is caught and converted into a descriptive string stored
in the database field of the returned object, every successful try-block
result is returned after the final environment assignments, and the
returned object always reports a running backend. -/
theorem test_database_total_spec (env : TestEnv) :
    (test_database env).backend = "✅ Running" ∧
    (∀ e, try_block env init_response = Except.error e →
      test_database env = finalize env (handle_error init_response e) ∧
      (test_database env).database = (match e with
        | PyError.importError => "❌ Database module not found"
        | PyError.otherExc m => "❌ Error: " ++ py_truncate m 50)) ∧
    (∀ r, try_block env init_response = Except.ok r →
      test_database env = finalize env r) := by
  obtain ⟨ir, urlv, namev⟩ := env
  refine ⟨?_, ?_, ?_⟩
  · cases ir with
    | ok odb =>
      cases odb with
      | none => rfl
      | some db =>
        obtain ⟨nm, lcn⟩ := db
        cases lcn <;> rfl
    | importError => rfl
    | otherError m => rfl
  · intro e he
    cases ir with
    | ok odb =>
      cases odb with
      | none => exact Except.noConfusion he
      | some db =>
        obtain ⟨nm, lcn⟩ := db
        cases lcn with
        | ok ls => exact Except.noConfusion he
        | error msg => exact Except.noConfusion he
    | importError =>
      cases he
      exact ⟨rfl, rfl⟩
    | otherError m =>
      cases he
      exact ⟨rfl, rfl⟩
  · intro r hr
    cases ir with
    | ok odb =>
      cases odb with
      | none =>
        cases hr
        rfl
      | some db =>
        obtain ⟨nm, lcn⟩ := db
        cases lcn with
        | ok ls =>
          cases hr
          rfl
        | error msg =>
          cases hr
          rfl
    | importError => exact Except.noConfusion hr
    | otherError m => exact Except.noConfusion hr

/-- Witness for C5 on the environment where the import raises. -/
theorem test_database_total_spec_witness :
    (test_database ⟨ImportResult.otherError "boom", none, none⟩).backend = "✅ Running" ∧
    (test_database ⟨ImportResult.otherError "boom", none, none⟩).database =
      "❌ Error: " ++ py_truncate "boom" 50 := by
  have h := test_database_total_spec ⟨ImportResult.otherError "boom", none, none⟩
  exact ⟨h.1, (h.2.1 (PyError.otherExc "boom") rfl).2⟩

/-- C6: the database_url and database_name fields of the /test response
always equal presence indicators for the DATABASE_URL and DATABASE_NAME
environment variables (Python truthiness: unset or empty counts as not
set), regardless of the import outcome; in particular, when the module is
absent the database field is "❌ Database module not found" while both
indicators still reflect only the environment variables. -/
theorem test_database_env_indicators (env : TestEnv) :
    (test_database env).database_url =
      some (if env_set env.database_url_env then "✅ Set" else "❌ Not Set") ∧
    (test_database env).database_name =
      some (if env_set env.database_name_env then "✅ Set" else "❌ Not Set") ∧
    (env.importResult = ImportResult.importError →
      (test_database env).database = "❌ Database module not found" ∧
      (test_database env).database_url =
        some (if env_set env.database_url_env then "✅ Set" else "❌ Not Set") ∧
      (test_database env).database_name =
        some (if env_set env.database_name_env then "✅ Set" else "❌ Not Set")) := by
  obtain ⟨ir, urlv, namev⟩ := env
  refine ⟨rfl, rfl, ?_⟩
  rintro rfl
  exact ⟨rfl, rfl, rfl⟩

/-- Witness for C6 with the module absent, DATABASE_URL set and
DATABASE_NAME unset. -/
theorem test_database_env_indicators_witness :
    (test_database ⟨ImportResult.importError, some "mongodb://h", none⟩).database =
      "❌ Database module not found" ∧
    (test_database ⟨ImportResult.importError, some "mongodb://h", none⟩).database_url =
      some "✅ Set" ∧
    (test_database ⟨ImportResult.importError, some "mongodb://h", none⟩).database_name =
      some "❌ Not Set" := by
  have h := (test_database_env_indicators
    ⟨ImportResult.importError, some "mongodb://h", none⟩).2.2 rfl
  exact ⟨h.1, h.2.1.trans (by decide), h.2.2.trans (by decide)⟩
